import Mathlib

/-!
Shallow embedding of `src/ui/js/websocket.js` (the `WS` module): connection
lifecycle, outbound `send`, the inbound message dispatcher, and the
subscription registry (`on` / `off` / `isConnected`).

JavaScript values that matter to the dispatcher (the `type` field of a decoded
payload) are modelled by `JSVal` together with JS truthiness; handler
references are modelled by `Nat` identities (reference equality becomes `Nat`
equality); console output, status updates, handler invocations and socket
transmissions are recorded in an event trace.
-/

namespace WSModel

/-- A JavaScript value as far as the dispatcher inspects one: the `type`
field of a decoded payload.  `undefined` models an absent field. -/
inductive JSVal where
  | undefined
  | jsnull
  | vbool (b : Bool)
  | vnum (n : Int)
  | vstr (s : String)
deriving DecidableEq, Repr

/-- JavaScript truthiness, as used by `if (!type)` in the message listener. -/
def truthy : JSVal → Bool
  | .undefined => false
  | .jsnull => false
  | .vbool b => b
  | .vnum n => n != 0
  | .vstr s => s != ""

/-- JavaScript property-key coercion `String(v)`, as applied by
`handlers[type]` when `type` is used as an object key. -/
def jsKey : JSVal → String
  | .undefined => "undefined"
  | .jsnull => "null"
  | .vbool b => if b then "true" else "false"
  | .vnum n => toString n
  | .vstr s => s

/-- A decoded inbound payload: its `type` field plus an abstract identity
for the rest of the decoded object (handlers receive the whole object). -/
structure Payload where
  type : JSVal
  data : Nat
deriving DecidableEq, Repr

/-- Observable effects of the module, in order: console diagnostics
(`console.warn` / `console.error` / `console.log`), status-indicator updates
(`setStatus`), socket transmissions (`socket.send`), handler invocations,
and caught handler exceptions. -/
inductive Event where
  | diag (tag : String)
  | status (s : String)
  | transmit (p : Payload)
  | invoke (cb : Nat) (p : Payload)
  | handlerError (cb : Nat)
deriving DecidableEq, Repr

/-- The `handlers` registry: `action → [callback, ...]`.  A key that was
never created maps to the empty list, which is observationally identical to
the source's absent key (`handlers[type] || []`). -/
def HandlerMap : Type := String → List Nat

/-- The registry at module load: `const handlers = {}`. -/
def emptyHandlers : HandlerMap := fun _ => []

/-- `on(type, callback)` (named `subscribe` here since `on` is reserved): append `callback` to `type`'s list, creating the
list if needed. -/
def subscribe (hm : HandlerMap) (t : String) (cb : Nat) : HandlerMap :=
  fun k => if k = t then hm k ++ [cb] else hm k

/-- `off(type, callback)`: replace `type`'s list by the list with every
occurrence of `callback` filtered out; early return when the key is absent
(same as filtering the empty list). -/
def off (hm : HandlerMap) (t : String) (cb : Nat) : HandlerMap :=
  fun k => if k = t then (hm k).filter (fun c => c ≠ cb) else hm k

/-- One `forEach(cb => { try { cb(payload) } catch ... })` pass over a
handler list: every callback is invoked with the full payload; a callback
that throws (per the `throws` oracle) has its exception caught and logged,
and iteration continues. -/
def runHandlers (cbs : List Nat) (throws : Nat → Payload → Bool) (p : Payload) :
    List Event :=
  (cbs.map (fun cb =>
    if throws cb p then [Event.invoke cb p, Event.handlerError cb]
    else [Event.invoke cb p])).flatten

/-- The body of the `message` listener.  `raw = none` models a frame on
which `JSON.parse` threw; `raw = some p` models a successful decode yielding
`p`.  A falsy `type` field is rejected by `if (!type)`; otherwise the
type-specific pass runs, then the wildcard (`"*"`) pass. -/
def dispatchMessage (hm : HandlerMap) (throws : Nat → Payload → Bool)
    (raw : Option Payload) : List Event :=
  match raw with
  | none => [Event.diag "non-json"]
  | some p =>
    if truthy p.type then
      runHandlers (hm (jsKey p.type)) throws p ++ runHandlers (hm "*") throws p
    else
      [Event.diag "no-type"]

/-- `WebSocket.CONNECTING` -/
def CONNECTING : Nat := 0
/-- `WebSocket.OPEN` -/
def OPEN : Nat := 1

/-- `RECONNECT_DELAY = 3000` ms. -/
def RECONNECT_DELAY : Nat := 3000

/-- The module's mutable state.  `socket` is `none` for `socket = null`,
otherwise `some readyState`.  `reconnectTimer` is the id last stored in the
`reconnectTimer` variable; `pendingTimers` is the set (as a list) of
scheduled timeouts that have neither fired nor been cancelled, each with its
delay; `nextTimerId` supplies fresh timer ids. -/
structure ChannelState where
  socket : Option Nat
  reconnectTimer : Option Nat
  pendingTimers : List (Nat × Nat)
  nextTimerId : Nat
  handlers : HandlerMap

/-- `clearTimeout(t)`: cancel the timeout with id `t` if it is still
pending; a no-op for `t = none` (a never-assigned timer variable). -/
def clearTimeout (st : ChannelState) (t : Option Nat) : ChannelState :=
  { st with pendingTimers := st.pendingTimers.filter (fun pt => some pt.1 ≠ t) }

/-- `scheduleReconnect()`: `clearTimeout(reconnectTimer)` then
`reconnectTimer = setTimeout(..., RECONNECT_DELAY)`. -/
def scheduleReconnect (st : ChannelState) : ChannelState :=
  let st1 := clearTimeout st st.reconnectTimer
  { st1 with
    reconnectTimer := some st.nextTimerId
    pendingTimers := st1.pendingTimers ++ [(st.nextTimerId, RECONNECT_DELAY)]
    nextTimerId := st.nextTimerId + 1 }

/-- `send(payload)`: `false` plus a warning when there is no socket or its
`readyState` is not `OPEN`; otherwise `socket.send(JSON.stringify(payload))`
once and `true`.  `send` reads but never writes the module state, so it
returns only its boolean result and its trace. -/
def send (st : ChannelState) (p : Payload) : Bool × List Event :=
  match st.socket with
  | none => (false, [Event.diag "cannot-send"])
  | some r =>
    if r ≠ OPEN then (false, [Event.diag "cannot-send"])
    else (true, [Event.transmit p])

/-- `isConnected()`: `socket && socket.readyState === WebSocket.OPEN`.
When `socket` is `null` the `&&` short-circuits and the expression evaluates
to `null` itself; otherwise to the boolean comparison. -/
def isConnected (st : ChannelState) : JSVal :=
  match st.socket with
  | none => JSVal.jsnull
  | some r => JSVal.vbool (r == OPEN)

/-- External stimuli handled by the module: the four socket listeners, a
timeout firing, and the public API calls that touch state. -/
inductive Step where
  | evOpen
  | evClose
  | evError
  | evMessage (raw : Option Payload)
  | timerFire (id : Nat)
  | callOn (t : String) (cb : Nat)
  | callOff (t : String) (cb : Nat)
  | callSend (p : Payload)

/-- One transition of the module, returning the new state and the trace of
observable events.  `throws` is the oracle saying which handler throws on
which payload. -/
def step (throws : Nat → Payload → Bool) (st : ChannelState) :
    Step → ChannelState × List Event
  | .evOpen =>
    match st.socket with
    | none => (st, [])
    | some _ =>
      (clearTimeout { st with socket := some OPEN } st.reconnectTimer,
       [Event.diag "connected", Event.status "connected"])
  | .evClose =>
    match st.socket with
    | none => (st, [])
    | some _ =>
      (scheduleReconnect { st with socket := none },
       [Event.diag "closed", Event.status "disconnected"])
  | .evError => (st, [Event.diag "error"])
  | .evMessage raw => (st, dispatchMessage st.handlers throws raw)
  | .timerFire id =>
    if st.pendingTimers.any (fun pt => pt.1 = id) then
      ({ st with
          pendingTimers := st.pendingTimers.filter (fun pt => pt.1 ≠ id)
          socket := some CONNECTING },
       [Event.diag "reconnecting", Event.status "loading"])
    else (st, [])
  | .callOn t cb => ({ st with handlers := subscribe st.handlers t cb }, [])
  | .callOff t cb => ({ st with handlers := off st.handlers t cb }, [])
  | .callSend p => (st, (send st p).2)

/-- The handler invocations of a trace, in order, with the payload each
handler received. -/
def invocations : List Event → List (Nat × Payload)
  | [] => []
  | Event.invoke cb p :: es => (cb, p) :: invocations es
  | _ :: es => invocations es

/-- Just the callbacks invoked by a trace, in order. -/
def invokedCbs (tr : List Event) : List Nat := (invocations tr).map Prod.fst

/-- How many console diagnostics a trace emits. -/
def diagCount (tr : List Event) : Nat :=
  (tr.filter (fun e => match e with | Event.diag _ => true | _ => false)).length

/-- How many socket transmissions of payload `p` a trace performs. -/
def transmitCount (p : Payload) (tr : List Event) : Nat :=
  (tr.filter (fun e => e = Event.transmit p)).length

/-!  ## Basic trace and registry lemmas  -/

theorem invocations_append (a b : List Event) :
    invocations (a ++ b) = invocations a ++ invocations b := by
  induction a with
  | nil => rfl
  | cons e es ih => cases e <;> simp [invocations, ih]

theorem runHandlers_cons (c : Nat) (cs : List Nat)
    (throws : Nat → Payload → Bool) (p : Payload) :
    runHandlers (c :: cs) throws p
      = (if throws c p then [Event.invoke c p, Event.handlerError c]
         else [Event.invoke c p]) ++ runHandlers cs throws p := by
  simp [runHandlers]

theorem invocations_runHandlers (cbs : List Nat)
    (throws : Nat → Payload → Bool) (p : Payload) :
    invocations (runHandlers cbs throws p) = cbs.map (fun cb => (cb, p)) := by
  induction cbs with
  | nil => rfl
  | cons c cs ih =>
    rw [runHandlers_cons, invocations_append, ih]
    by_cases h : throws c p = true <;> simp [h, invocations]

theorem handlerError_mem_runHandlers (cbs : List Nat)
    (throws : Nat → Payload → Bool) (p : Payload) (cb : Nat)
    (h1 : cb ∈ cbs) (h2 : throws cb p = true) :
    Event.handlerError cb ∈ runHandlers cbs throws p := by
  induction cbs with
  | nil => cases h1
  | cons c cs ih =>
    rw [runHandlers_cons]
    rcases List.mem_cons.mp h1 with rfl | hmem
    · rw [h2]; simp
    · exact List.mem_append_right _ (ih hmem)

theorem subscribe_self (hm : HandlerMap) (t : String) (cb : Nat) :
    subscribe hm t cb t = hm t ++ [cb] := by
  simp [subscribe]

theorem subscribe_other (hm : HandlerMap) (t k : String) (cb : Nat)
    (h : k ≠ t) : subscribe hm t cb k = hm k := by
  simp [subscribe, h]

theorem off_self (hm : HandlerMap) (t : String) (cb : Nat) :
    off hm t cb t = (hm t).filter (fun c => c ≠ cb) := by
  simp [off]

theorem off_other (hm : HandlerMap) (t k : String) (cb : Nat)
    (h : k ≠ t) : off hm t cb k = hm k := by
  simp [off, h]

/-!  ## The pending-reconnect invariant  -/

/-- At most one scheduled reconnection attempt is outstanding, it is the one
held by the `reconnectTimer` variable, it was scheduled at
`RECONNECT_DELAY`, and all issued timer ids are below `nextTimerId`. -/
def TimerInv (st : ChannelState) : Prop :=
  (∀ pt ∈ st.pendingTimers, pt.1 < st.nextTimerId ∧ pt.2 = RECONNECT_DELAY) ∧
  (∀ i, st.reconnectTimer = some i → i < st.nextTimerId) ∧
  (st.pendingTimers = [] ∨
    ∃ i, st.reconnectTimer = some i ∧
      st.pendingTimers = [(i, RECONNECT_DELAY)])

theorem filter_reconnect_nil (l : List (Nat × Nat)) (tm : Option Nat)
    (h : l = [] ∨ ∃ i, tm = some i ∧ l = [(i, RECONNECT_DELAY)]) :
    l.filter (fun pt => some pt.1 ≠ tm) = [] := by
  rcases h with rfl | ⟨i, rfl, rfl⟩
  · rfl
  · simp

theorem scheduleReconnect_pending (st : ChannelState)
    (h : st.pendingTimers = [] ∨ ∃ i, st.reconnectTimer = some i ∧
        st.pendingTimers = [(i, RECONNECT_DELAY)]) :
    (scheduleReconnect st).pendingTimers
      = [(st.nextTimerId, RECONNECT_DELAY)] := by
  show st.pendingTimers.filter (fun pt => some pt.1 ≠ st.reconnectTimer)
      ++ [(st.nextTimerId, RECONNECT_DELAY)]
    = [(st.nextTimerId, RECONNECT_DELAY)]
  rw [filter_reconnect_nil _ _ h]
  rfl

theorem timerInv_scheduleReconnect (st : ChannelState) (h : TimerInv st) :
    TimerInv (scheduleReconnect st) := by
  obtain ⟨h1, h2, h3⟩ := h
  have hp := scheduleReconnect_pending st h3
  refine ⟨?_, ?_, Or.inr ⟨st.nextTimerId, rfl, hp⟩⟩
  · intro pt hpt
    rw [hp] at hpt
    rcases List.mem_singleton.mp hpt with rfl
    exact ⟨Nat.lt_succ_self _, rfl⟩
  · intro i hi
    cases hi
    exact Nat.lt_succ_self _

theorem timerInv_step (throws : Nat → Payload → Bool) (st : ChannelState)
    (h : TimerInv st) (s : Step) : TimerInv (step throws st s).1 := by
  obtain ⟨h1, h2, h3⟩ := h
  cases s with
  | evOpen =>
    cases hs : st.socket with
    | none => simp only [step, hs]; exact ⟨h1, h2, h3⟩
    | some r =>
      have hnil := filter_reconnect_nil st.pendingTimers st.reconnectTimer h3
      simp only [step, hs]
      refine ⟨?_, h2, Or.inl ?_⟩
      · intro pt hpt
        simp only [clearTimeout] at hpt
        rw [hnil] at hpt
        cases hpt
      · simpa [clearTimeout] using hnil
  | evClose =>
    cases hs : st.socket with
    | none => simp only [step, hs]; exact ⟨h1, h2, h3⟩
    | some r =>
      simp only [step, hs]
      exact timerInv_scheduleReconnect _ ⟨h1, h2, h3⟩
  | evError => exact ⟨h1, h2, h3⟩
  | evMessage raw => exact ⟨h1, h2, h3⟩
  | timerFire id =>
    simp only [step]
    by_cases hc : st.pendingTimers.any (fun pt => pt.1 = id) = true
    · rw [if_pos hc]
      refine ⟨?_, h2, ?_⟩
      · intro pt hpt
        exact h1 pt (List.mem_of_mem_filter hpt)
      · rcases h3 with hnil | ⟨i, hti, hp⟩
        · left; rw [hnil]; rfl
        · by_cases hid : i = id
          · left; rw [hp, hid]; simp
          · right
            refine ⟨i, hti, ?_⟩
            rw [hp]
            simp [hid]
    · rw [if_neg hc]
      exact ⟨h1, h2, h3⟩
  | callOn t cb => exact ⟨h1, h2, h3⟩
  | callOff t cb => exact ⟨h1, h2, h3⟩
  | callSend p => exact ⟨h1, h2, h3⟩

theorem timerInv_length_le_one (st : ChannelState) (h : TimerInv st) :
    st.pendingTimers.length ≤ 1 := by
  rcases h.2.2 with hnil | ⟨i, _, hp⟩
  · rw [hnil]; exact Nat.zero_le 1
  · rw [hp]; exact Nat.le_refl 1

theorem map_fst_pair (l : List Nat) (p : Payload) :
    (l.map (fun cb => (cb, p))).map Prod.fst = l := by
  induction l with
  | nil => rfl
  | cons a l ih => simp [ih]

theorem invokedCbs_dispatch (hm : HandlerMap) (throws : Nat → Payload → Bool)
    (p : Payload) (h : truthy p.type = true) :
    invokedCbs (dispatchMessage hm throws (some p))
      = hm (jsKey p.type) ++ hm "*" := by
  have hi : invocations (dispatchMessage hm throws (some p))
      = (hm (jsKey p.type) ++ hm "*").map (fun cb => (cb, p)) := by
    simp [dispatchMessage, h, invocations_append, invocations_runHandlers]
  unfold invokedCbs
  rw [hi, map_fst_pair]

/-!  ## Concrete fixtures used by witnesses  -/

def sampleOpen : ChannelState :=
  { socket := some OPEN, reconnectTimer := none, pendingTimers := [],
    nextTimerId := 0, handlers := emptyHandlers }

def sampleClosed : ChannelState :=
  { socket := none, reconnectTimer := none, pendingTimers := [],
    nextTimerId := 5, handlers := emptyHandlers }

def samplePayload : Payload :=
  { type := JSVal.vstr "apply_filters_result", data := 42 }

def noThrow : Nat → Payload → Bool := fun _ _ => false

def sampleThrow : Nat → Payload → Bool := fun c _ => c == 1

def sampleHm : HandlerMap :=
  subscribe (subscribe emptyHandlers "apply_filters_result" 1)
    "apply_filters_result" 2

/-!  ## The claims  -/

/-- **C1.** When the socket exists and its `readyState` is `OPEN`, `send`
serializes the payload, transmits it exactly once and returns `true`; in
every other connection state it transmits nothing, emits exactly one
diagnostic and returns `false`. -/
theorem send_contract (st : ChannelState) (p : Payload) :
    (st.socket = some OPEN → send st p = (true, [Event.transmit p])) ∧
    (st.socket ≠ some OPEN →
      (send st p).1 = false ∧
      transmitCount p (send st p).2 = 0 ∧
      diagCount (send st p).2 = 1) := by
  constructor
  · intro h
    simp [send, h]
  · intro h
    match hs : st.socket with
    | none => simp [send, hs, transmitCount, diagCount]
    | some r =>
      have hr : r ≠ OPEN := fun hh => h (by rw [hs, hh])
      simp [send, hs, hr, transmitCount, diagCount]

theorem send_contract_w :
    sampleOpen.socket = some OPEN ∧
    send sampleOpen samplePayload = (true, [Event.transmit samplePayload]) ∧
    sampleClosed.socket ≠ some OPEN ∧
    (send sampleClosed samplePayload).1 = false :=
  ⟨rfl, (send_contract sampleOpen samplePayload).1 rfl,
   by simp [sampleClosed],
   ((send_contract sampleClosed samplePayload).2 (by simp [sampleClosed])).1⟩

/-- **C2.** For a successfully decoded frame with a truthy `type`, the
handlers for that type run first, in registration order (`subscribe`
appends, so list order is registration order), followed by all
wildcard handlers in registration order, each receiving the full decoded
payload. -/
theorem dispatch_order (hm : HandlerMap) (throws : Nat → Payload → Bool)
    (p : Payload) (h : truthy p.type = true) :
    invocations (dispatchMessage hm throws (some p))
      = (hm (jsKey p.type) ++ hm "*").map (fun cb => (cb, p)) ∧
    (∀ t c, subscribe hm t c t = hm t ++ [c]) := by
  constructor
  · simp [dispatchMessage, h, invocations_append, invocations_runHandlers]
  · intro t c
    exact subscribe_self hm t c

theorem dispatch_order_w :
    truthy samplePayload.type = true ∧
    invocations (dispatchMessage sampleHm noThrow (some samplePayload))
      = (sampleHm (jsKey samplePayload.type) ++ sampleHm "*").map
          (fun cb => (cb, samplePayload)) :=
  ⟨by decide, (dispatch_order sampleHm noThrow samplePayload (by decide)).1⟩

/-- **C3.** A frame that fails decoding (`raw = none`), or decodes with a
falsy `type`, produces exactly one diagnostic, invokes no handler at all,
and leaves the whole module state unchanged. -/
theorem dispatch_decode_failure (throws : Nat → Payload → Bool)
    (st : ChannelState) (raw : Option Payload) :
    (step throws st (Step.evMessage raw)).1 = st ∧
    (raw = none →
      (step throws st (Step.evMessage raw)).2 = [Event.diag "non-json"] ∧
      invocations (step throws st (Step.evMessage raw)).2 = []) ∧
    (∀ p, raw = some p → truthy p.type = false →
      (step throws st (Step.evMessage raw)).2 = [Event.diag "no-type"] ∧
      invocations (step throws st (Step.evMessage raw)).2 = []) := by
  refine ⟨rfl, ?_, ?_⟩
  · rintro rfl
    exact ⟨rfl, rfl⟩
  · rintro p rfl hp
    constructor
    · simp [step, dispatchMessage, hp]
    · simp [step, dispatchMessage, hp, invocations]

theorem dispatch_decode_failure_w :
    (step noThrow sampleClosed (Step.evMessage none)).1 = sampleClosed ∧
    (step noThrow sampleClosed (Step.evMessage none)).2
      = [Event.diag "non-json"] :=
  ⟨(dispatch_decode_failure noThrow sampleClosed none).1,
   ((dispatch_decode_failure noThrow sampleClosed none).2.1 rfl).1⟩

/-- **C4.** At most one reconnection attempt is pending at any time; a
closure while a socket exists (in particular from `OPEN`) leaves exactly one
pending attempt, scheduled at `RECONNECT_DELAY`, whose fresh timer id
differs from any previously scheduled one — the old pending attempt is
cancelled and replaced, never duplicated. -/
theorem pendingReconnect_contract (throws : Nat → Payload → Bool)
    (st : ChannelState) (h : TimerInv st) :
    st.pendingTimers.length ≤ 1 ∧
    (∀ s, TimerInv (step throws st s).1 ∧
      (step throws st s).1.pendingTimers.length ≤ 1) ∧
    (st.socket = some OPEN →
      (step throws st Step.evClose).1.pendingTimers
        = [(st.nextTimerId, RECONNECT_DELAY)] ∧
      ∀ i, st.reconnectTimer = some i → st.nextTimerId ≠ i) := by
  refine ⟨timerInv_length_le_one st h, ?_, ?_⟩
  · intro s
    have hi := timerInv_step throws st h s
    exact ⟨hi, timerInv_length_le_one _ hi⟩
  · intro hs
    constructor
    · have he : (step throws st Step.evClose).1
          = scheduleReconnect { st with socket := none } := by
        simp [step, hs]
      rw [he]
      exact scheduleReconnect_pending _ h.2.2
    · intro i hi
      exact Ne.symm (Nat.ne_of_lt (h.2.1 i hi))

theorem pendingReconnect_contract_w :
    TimerInv sampleOpen ∧
    (step noThrow sampleOpen Step.evClose).1.pendingTimers
      = [(sampleOpen.nextTimerId, RECONNECT_DELAY)] := by
  have hInv : TimerInv sampleOpen := by
    refine ⟨?_, ?_, Or.inl rfl⟩ <;> simp [sampleOpen]
  exact ⟨hInv,
    ((pendingReconnect_contract noThrow sampleOpen hInv).2.2 rfl).1⟩

/-- **C5.** A handler that throws during dispatch is caught and logged, and
every handler of the frame's type and of the wildcard set is still invoked
with the full payload, in order, exactly as when nothing throws. -/
theorem handler_isolation (hm : HandlerMap) (throws : Nat → Payload → Bool)
    (p : Payload) (cb : Nat) (h : truthy p.type = true)
    (hmem : cb ∈ hm (jsKey p.type) ++ hm "*") (hth : throws cb p = true) :
    invocations (dispatchMessage hm throws (some p))
      = (hm (jsKey p.type) ++ hm "*").map (fun c => (c, p)) ∧
    Event.handlerError cb ∈ dispatchMessage hm throws (some p) := by
  constructor
  · simp [dispatchMessage, h, invocations_append, invocations_runHandlers]
  · have hd : dispatchMessage hm throws (some p)
        = runHandlers (hm (jsKey p.type)) throws p
          ++ runHandlers (hm "*") throws p := by
      simp [dispatchMessage, h]
    rw [hd]
    rcases List.mem_append.mp hmem with h1 | h1
    · exact List.mem_append_left _
        (handlerError_mem_runHandlers _ _ _ _ h1 hth)
    · exact List.mem_append_right _
        (handlerError_mem_runHandlers _ _ _ _ h1 hth)

theorem handler_isolation_w :
    truthy samplePayload.type = true ∧
    sampleThrow 1 samplePayload = true ∧
    invocations (dispatchMessage sampleHm sampleThrow (some samplePayload))
      = (sampleHm (jsKey samplePayload.type) ++ sampleHm "*").map
          (fun c => (c, samplePayload)) ∧
    Event.handlerError 1 ∈ dispatchMessage sampleHm sampleThrow (some samplePayload) := by
  refine ⟨by decide, by decide, ?_, ?_⟩
  · exact (handler_isolation sampleHm sampleThrow samplePayload 1
      (by decide) (by decide) (by decide)).1
  · exact (handler_isolation sampleHm sampleThrow samplePayload 1
      (by decide) (by decide) (by decide)).2

/-- **C6 counterexample.** A handler registered under both a concrete type
and the wildcard is still invoked by a frame of that type after
`off(type, handler)`: removal touches only the type's own sequence, so the
claim "a subsequent frame of type t never invokes h" fails. -/
theorem off_wildcard_cex :
    0 ∈ invokedCbs (dispatchMessage
      (off (subscribe (subscribe emptyHandlers "*" 0) "a" 0) "a" 0)
      noThrow (some { type := JSVal.vstr "a", data := 7 })) := by decide

/-- **C6 (amended).** `off(t, h)` removes all occurrences of `h` from `t`'s
handler sequence and is a no-op when `h` is absent; a subsequent frame of
type `t` therefore never invokes `h` through the type-specific pass — it can
still invoke `h` through a separate wildcard subscription. -/
theorem off_removes_all (hm : HandlerMap) (t : String) (cb : Nat) :
    off hm t cb t = (hm t).filter (fun c => c ≠ cb) ∧
    cb ∉ off hm t cb t ∧
    (cb ∉ hm t → off hm t cb = hm) ∧
    (∀ throws p, jsKey p.type = t → truthy p.type = true → t ≠ "*" →
      cb ∉ hm "*" →
      cb ∉ invokedCbs (dispatchMessage (off hm t cb) throws (some p))) := by
  refine ⟨off_self hm t cb, ?_, ?_, ?_⟩
  · rw [off_self]
    intro hmem
    rcases List.mem_filter.mp hmem with ⟨_, hdec⟩
    simp at hdec
  · intro habs
    funext k
    by_cases hk : k = t
    · subst hk
      rw [off_self]
      apply List.filter_eq_self.mpr
      intro a ha
      have hne : a ≠ cb := fun he => habs (he ▸ ha)
      simp [hne]
    · exact off_other hm t k cb hk
  · intro throws p hk htr hts hw hmem
    rw [invokedCbs_dispatch _ _ _ htr, hk, off_self,
        off_other hm t "*" cb (Ne.symm hts)] at hmem
    rcases List.mem_append.mp hmem with h1 | h1
    · rcases List.mem_filter.mp h1 with ⟨_, hdec⟩
      simp at hdec
    · exact hw h1

theorem off_removes_all_w :
    (1 ∉ sampleHm "*") ∧
    1 ∉ invokedCbs (dispatchMessage
      (off sampleHm "apply_filters_result" 1) noThrow (some samplePayload)) :=
  ⟨by decide,
   (off_removes_all sampleHm "apply_filters_result" 1).2.2.2 noThrow
     samplePayload rfl (by decide) (by decide) (by decide)⟩

/-- **C7.** `subscribe` does not deduplicate: registering the same handler
reference twice under the same type appends it twice, and a subsequent frame
of that type invokes it twice. -/
theorem subscribe_not_idempotent (hm : HandlerMap) (t : String) (cb : Nat) :
    subscribe (subscribe hm t cb) t cb t = hm t ++ [cb, cb] ∧
    (∀ throws p, jsKey p.type = t → truthy p.type = true → t ≠ "*" →
      cb ∉ hm t → cb ∉ hm "*" →
      (invokedCbs (dispatchMessage (subscribe (subscribe hm t cb) t cb)
          throws (some p))).count cb = 2) := by
  constructor
  · rw [subscribe_self, subscribe_self, List.append_assoc]
    rfl
  · intro throws p hk htr hts h1 h2
    rw [invokedCbs_dispatch _ _ _ htr, hk, subscribe_self, subscribe_self,
        subscribe_other _ _ _ _ (Ne.symm hts),
        subscribe_other _ _ _ _ (Ne.symm hts)]
    have e1 : (hm t).count cb = 0 := List.count_eq_zero.mpr h1
    have e2 : (hm "*").count cb = 0 := List.count_eq_zero.mpr h2
    simp [List.count_append, e1, e2]

theorem subscribe_not_idempotent_w :
    (invokedCbs (dispatchMessage
      (subscribe (subscribe emptyHandlers "evt" 7) "evt" 7) noThrow
      (some { type := JSVal.vstr "evt", data := 0 }))).count 7 = 2 :=
  (subscribe_not_idempotent emptyHandlers "evt" 7).2 noThrow
    { type := JSVal.vstr "evt", data := 0 } rfl (by decide) (by decide)
    (by decide) (by decide)

/-- **C8 counterexample.** With `socket = null` (a non-`OPEN` state),
`isConnected()` evaluates `socket && ...` to `null`, which is not the
boolean `false` the claim requires. -/
theorem isConnected_null_cex :
    isConnected sampleClosed = JSVal.jsnull ∧
    JSVal.jsnull ≠ JSVal.vbool false ∧
    truthy (isConnected sampleClosed) = false := by
  exact ⟨rfl, by decide, rfl⟩

/-- **C8 (amended).** `isConnected()` is a pure read whose result is truthy
exactly when the connection state is `OPEN`; in non-`OPEN` states it is
falsy, but it is the boolean `false` only when a socket object exists — with
no socket it is `null`. -/
theorem isConnected_truthiness (st : ChannelState) :
    (truthy (isConnected st) = true ↔ st.socket = some OPEN) ∧
    (st.socket = none → isConnected st = JSVal.jsnull) ∧
    (∀ r, st.socket = some r → isConnected st = JSVal.vbool (r == OPEN)) := by
  refine ⟨?_, ?_, ?_⟩
  · cases hs : st.socket with
    | none => simp [isConnected, hs, truthy]
    | some r => simp [isConnected, hs, truthy]
  · intro hs
    simp [isConnected, hs]
  · intro r hs
    simp [isConnected, hs]

theorem isConnected_truthiness_w :
    sampleClosed.socket = none ∧
    isConnected sampleClosed = JSVal.jsnull ∧
    sampleOpen.socket = some OPEN ∧
    isConnected sampleOpen = JSVal.vbool (OPEN == OPEN) :=
  ⟨rfl, (isConnected_truthiness sampleClosed).2.1 rfl, rfl,
   (isConnected_truthiness sampleOpen).2.2 OPEN rfl⟩

/-- **C9.** A decoded frame whose `type` field is present but falsy (for
example `""` or `0`) is dropped exactly like a frame with no `type` at all:
one diagnostic, no handler invoked. -/
theorem falsy_type_dropped (hm : HandlerMap) (throws : Nat → Payload → Bool)
    (d : Nat) (v : JSVal) (h : truthy v = false) :
    dispatchMessage hm throws (some { type := v, data := d })
      = [Event.diag "no-type"] ∧
    invocations (dispatchMessage hm throws (some { type := v, data := d }))
      = [] ∧
    diagCount (dispatchMessage hm throws (some { type := v, data := d }))
      = 1 ∧
    dispatchMessage hm throws (some { type := v, data := d })
      = dispatchMessage hm throws (some { type := JSVal.undefined, data := d }) := by
  have hd : dispatchMessage hm throws (some { type := v, data := d })
      = [Event.diag "no-type"] := by
    simp [dispatchMessage, h]
  exact ⟨hd, by rw [hd]; rfl, by rw [hd]; rfl, by rw [hd]; rfl⟩

theorem falsy_type_dropped_w :
    truthy (JSVal.vstr "") = false ∧
    truthy (JSVal.vnum 0) = false ∧
    dispatchMessage sampleHm noThrow (some { type := JSVal.vstr "", data := 3 })
      = [Event.diag "no-type"] ∧
    invocations (dispatchMessage sampleHm noThrow
      (some { type := JSVal.vnum 0, data := 3 })) = [] :=
  ⟨by decide, by decide,
   (falsy_type_dropped sampleHm noThrow 3 (JSVal.vstr "") (by decide)).1,
   (falsy_type_dropped sampleHm noThrow 3 (JSVal.vnum 0) (by decide)).2.1⟩

/-- **C10.** A frame whose `type` is exactly the string `"*"` runs the
wildcard list in the type-specific pass and again in the wildcard pass: each
wildcard handler is invoked twice for that single frame. -/
theorem wildcard_type_double (hm : HandlerMap) (throws : Nat → Payload → Bool)
    (d : Nat) :
    invocations (dispatchMessage hm throws
        (some { type := JSVal.vstr "*", data := d }))
      = (hm "*" ++ hm "*").map
          (fun cb => (cb, ({ type := JSVal.vstr "*", data := d } : Payload))) ∧
    ∀ cb, (invokedCbs (dispatchMessage hm throws
        (some { type := JSVal.vstr "*", data := d }))).count cb
      = 2 * (hm "*").count cb := by
  have ht : truthy (JSVal.vstr "*") = true := by decide
  constructor
  · simp [dispatchMessage, ht, jsKey, invocations_append,
          invocations_runHandlers]
  · intro cb
    rw [invokedCbs_dispatch hm throws _ ht]
    simp [jsKey, List.count_append, Nat.two_mul]

end WSModel
